import Mathlib

/-!
Verification development for the SuperSearchLocalDocs repository.

The Python sources are shallowly embedded: Python strings become `List Char`,
SQLite tables become association lists, raised exceptions become `Except`
values, and the filesystem / external libraries become explicit environment
records of functions.  Every definition is translated from the corresponding
source function (file and symbol named in its doc comment).  Unicode-specific
behaviour of Python (`str.lower`, `\b` word boundaries) is modelled at ASCII
granularity, which is the granularity all claims speak about.
-/

namespace SSLD

/-- Python strings, modelled as character lists. -/
abbrev Str := List Char

/-! ## Python string primitives used by the sources -/

/-- A regex word character (`\w` at ASCII granularity): letter, digit or
underscore.  Used to locate the `\b` boundaries of `re.findall(r'\b[a-z]{3,}\b', ...)`. -/
def isWordChar (c : Char) : Bool :=
  c.isAlpha || c.isDigit || c == '_'

/-- An ASCII lowercase letter, the character class `[a-z]` of the word regex. -/
def isLowerAlpha (c : Char) : Bool :=
  'a' ≤ c && c ≤ 'z'

/-- `str.lower` (ASCII granularity). -/
def pyLower (s : Str) : Str := s.map Char.toLower

/-- Whitespace for `str.split()` / `str.strip()`. -/
def isPySpace (c : Char) : Bool := c.isWhitespace

/-- `str.strip()`: remove leading and trailing whitespace. -/
def pyStrip (s : Str) : Str :=
  ((s.dropWhile isPySpace).reverse.dropWhile isPySpace).reverse

/-- Worker for `pySplit`: `acc` is the current (reversed) word being scanned. -/
def pySplitGo : Str → Str → List Str
  | acc, [] => if acc.isEmpty then [] else [acc.reverse]
  | acc, c :: cs =>
    if isPySpace c then
      if acc.isEmpty then pySplitGo [] cs else acc.reverse :: pySplitGo [] cs
    else
      pySplitGo (c :: acc) cs

/-- `str.split()` with no arguments: split on whitespace runs, no empty parts. -/
def pySplit (s : Str) : List Str := pySplitGo [] s

/-- Boolean "is this list a prefix of that one" (used for substring search and
for `Path.relative_to`). -/
def leadsList [BEq α] : List α → List α → Bool
  | [], _ => true
  | _ :: _, [] => false
  | p :: ps, c :: cs => p == c && leadsList ps cs

/-- Python `pat in s` substring containment. -/
def containsSubstring (pat : Str) : Str → Bool
  | [] => leadsList pat []
  | c :: cs => leadsList pat (c :: cs) || containsSubstring pat cs

/-- Python `s.replace(pat, repl, 1)`: replace the first occurrence of `pat`. -/
def pyReplaceFirst (s pat repl : Str) : Str :=
  match s with
  | [] => if pat.isEmpty then repl else []
  | c :: cs =>
    if leadsList pat (c :: cs) then repl ++ (c :: cs).drop pat.length
    else c :: pyReplaceFirst cs pat repl

/-! ## The word tokenizer of `indexer.py`

`re.findall(r'\b[a-z]{3,}\b', content.lower())` returns exactly the maximal
runs of word characters that consist solely of `[a-z]` and have length ≥ 3:
a shorter all-lowercase match inside a longer word-character run is rejected
by the `\b` boundaries. -/

/-- Worker for `wordRuns`: `acc` is the current (reversed) word-character run. -/
def wordRunsGo : List Char → Str → List Str
  | acc, [] => if acc.isEmpty then [] else [acc.reverse]
  | acc, c :: cs =>
    if isWordChar c then wordRunsGo (c :: acc) cs
    else if acc.isEmpty then wordRunsGo [] cs
    else acc.reverse :: wordRunsGo [] cs

/-- The maximal word-character runs of a string. -/
def wordRuns (s : Str) : List Str := wordRunsGo [] s

/-- A run that the regex `\b[a-z]{3,}\b` accepts as a match. -/
def goodToken (r : Str) : Bool :=
  3 ≤ r.length && r.all isLowerAlpha

/-- `re.findall(r'\b[a-z]{3,}\b', content.lower())` from
`indexer.py` (`update_word_counts`, `rebuild_word_counts`). -/
def pyFindWords (content : Str) : List Str :=
  (wordRuns (pyLower content)).filter goodToken

/-- The stop list of `DocumentIndexer.update_word_counts` /
`rebuild_word_counts` (`indexer.py`), verbatim including the duplicated
entry for the word t-h-a-n; membership semantics is unaffected. -/
def stop_words : List Str :=
  (["the", "a", "an", "and", "or", "but", "in", "on", "at", "to", "for",
    "of", "with", "by", "from", "as", "is", "was", "are", "be", "been",
    "this", "that", "these", "those", "it", "its", "can", "will", "would",
    "sheet", "none", "true", "false", "openpyxl", "not", "installed",
    "error", "reading", "has", "have", "had", "do", "does", "did", "you",
    "your", "we", "our", "they", "their", "he", "she", "his", "her", "if",
    "then", "than", "so", "what", "when", "where", "who", "which", "how",
    "all", "any", "both", "each", "few", "more", "most", "other", "some",
    "such", "no", "nor", "only", "own", "same", "than", "too", "very",
    "nan"]).map String.toList

/-- `word in stop_words`. -/
def isStopWord (w : Str) : Bool := decide (w ∈ stop_words)

/-- The tokens of a content string that survive the stop-word filter. -/
def survivors (content : Str) : List Str :=
  (pyFindWords content).filter (fun w => !isStopWord w)

/-! ## The `word_counts` table -/

/-- The `word_counts` table (one row per word), as an association list. -/
abbrev WordCounts := List (Str × Nat)

/-- The stored count of a word (`0` when the word has no row), the view all
word-count claims are stated through. -/
def getCount : WordCounts → Str → Nat
  | [], _ => 0
  | (k, v) :: t, w => if k = w then v else getCount t w

/-- `d[w] = d.get(w, 0) + 1` on a Python dict. -/
def bumpWord : WordCounts → Str → WordCounts
  | [], w => [(w, 1)]
  | (k, v) :: t, w => if k = w then (k, v + 1) :: t else (k, v) :: bumpWord t w

/-- `INSERT INTO word_counts (word, count) VALUES (?, ?) ON CONFLICT(word)
DO UPDATE SET count = count + ?` (`indexer.py`, `update_word_counts`). -/
def upsertAdd : WordCounts → Str → Nat → WordCounts
  | [], w, n => [(w, n)]
  | (k, v) :: t, w, n =>
    if k = w then (k, v + n) :: t else (k, v) :: upsertAdd t w n

/-- The per-document frequency dict `word_freq` of `update_word_counts`. -/
def localWordFreq (content : Str) : WordCounts :=
  (survivors content).foldl bumpWord []

/-- `DocumentIndexer.update_word_counts` (`indexer.py` lines 143-188): skip
when the content is shorter than 20 characters, otherwise upsert each local
count into the table.  (`if not content` is subsumed: an empty string has
length 0 < 20.) -/
def update_word_counts (wc : WordCounts) (content : Str) : WordCounts :=
  if content.length < 20 then wc
  else
    let freq := localWordFreq content
    if freq.isEmpty then wc
    else freq.foldl (fun acc e => upsertAdd acc e.1 e.2) wc

/-! ## `rebuild_word_counts` -/

/-- A row of the `documents` table, restricted to the columns
`rebuild_word_counts` reads. -/
structure DocumentRow where
  rowid : Nat
  content : Option Str
deriving DecidableEq

/-- The `WHERE content IS NOT NULL AND LENGTH(content) > 20` filter of the
rebuild query, yielding the contents in table (rowid) order. -/
def qualifyingContents (docs : List DocumentRow) : List Str :=
  docs.filterMap fun d =>
    match d.content with
    | some c => if 20 < c.length then some c else none
    | none => none

/-- Accumulate one document's surviving tokens into the in-memory dict
(`for word in words: if word not in stop_words: all_word_counts[word] += 1`). -/
def countDocTokens (acc : WordCounts) (c : Str) : WordCounts :=
  (survivors c).foldl bumpWord acc

/-- The rebuild batch size. -/
def batch_size : Nat := 1000

/-- The paged `while True` loop of `rebuild_word_counts`: fetch up to
`batch_size` qualifying rows past the cursor, accumulate, advance.  Because
the query orders by the strictly increasing `rowid`, the loop visits each
qualifying content exactly once, in order, which is what this models. -/
def rebuildLoop : List Str → WordCounts → WordCounts
  | [], acc => acc
  | c :: rest, acc =>
    rebuildLoop ((c :: rest).drop batch_size)
      (((c :: rest).take batch_size).foldl countDocTokens acc)
termination_by l _ => l.length
decreasing_by
  simp only [List.length_drop, List.length_cons, batch_size]
  omega

/-- `DocumentIndexer.rebuild_word_counts` (`indexer.py` lines 190-272): the
table contents after `DELETE FROM word_counts` plus the insertion of the
in-memory accumulation (the claims all concern the state after the commit). -/
def rebuild_word_counts (docs : List DocumentRow) : WordCounts :=
  rebuildLoop (qualifyingContents docs) []

/-- The batched cursor loop visits exactly the given contents in order: it is
a left fold of per-document accumulation. -/
theorem rebuildLoop_eq_foldl :
    ∀ (n : Nat) (l : List Str), l.length ≤ n →
      ∀ acc, rebuildLoop l acc = l.foldl countDocTokens acc := by
  intro n
  induction n with
  | zero =>
    intro l h acc
    cases l with
    | nil => simp [rebuildLoop]
    | cons c rest => simp at h
  | succ n ih =>
    intro l h acc
    cases l with
    | nil => simp [rebuildLoop]
    | cons c rest =>
      rw [rebuildLoop]
      rw [ih ((c :: rest).drop batch_size)
        (by simp only [List.length_drop, List.length_cons, batch_size] at *; omega)]
      conv_rhs => rw [← List.take_append_drop batch_size (c :: rest)]
      rw [List.foldl_append]

/-- `rebuild_word_counts` as a plain fold over the qualifying contents. -/
theorem rebuild_word_counts_eq (docs : List DocumentRow) :
    rebuild_word_counts docs = (qualifyingContents docs).foldl countDocTokens [] := by
  unfold rebuild_word_counts
  exact rebuildLoop_eq_foldl (qualifyingContents docs).length _ le_rfl _

/-- Occurrences of a word in one content string, as counted by the tokenizer. -/
def occurrences (w : Str) (c : Str) : Nat := (pyFindWords c).count w

/-- Total occurrences of a word over the contents of all documents (the
quantity named by claim C1). -/
def totalOccurrencesAll (w : Str) (docs : List DocumentRow) : Nat :=
  ((docs.filterMap DocumentRow.content).map (occurrences w)).sum

/-- Total occurrences of a word over the contents the rebuild query actually
visits (non-NULL, length > 20). -/
def totalOccurrencesLong (w : Str) (docs : List DocumentRow) : Nat :=
  ((qualifyingContents docs).map (occurrences w)).sum

/-! ## Counting lemmas for the word-frequency aggregator -/

theorem count_cons_str (a w : Str) (t : List Str) :
    (a :: t).count w = t.count w + (if a = w then 1 else 0) := by
  simp [List.count_cons, beq_iff_eq]

theorem count_filter_of_pred {p : Str → Bool} {w : Str} (hw : p w = true) :
    ∀ l : List Str, (l.filter p).count w = l.count w := by
  intro l
  induction l with
  | nil => rfl
  | cons a t ih =>
    by_cases ha : p a
    · rw [List.filter_cons_of_pos ha, count_cons_str, count_cons_str, ih]
    · rw [List.filter_cons_of_neg (by simpa using ha), count_cons_str, ih]
      have : a ≠ w := by
        intro h
        subst h
        exact ha hw
      simp [this]

theorem getCount_bumpWord (m : WordCounts) (u w : Str) :
    getCount (bumpWord m u) w = getCount m w + (if u = w then 1 else 0) := by
  induction m with
  | nil => by_cases h : u = w <;> simp [bumpWord, getCount, h]
  | cons e t ih =>
    obtain ⟨k, v⟩ := e
    by_cases hk : k = u
    · subst hk
      by_cases hw : k = w <;> simp [bumpWord, getCount, hw]
    · by_cases hw : k = w
      · subst hw
        have huk : ¬ u = k := fun h => hk h.symm
        simp [bumpWord, getCount, hk, huk]
      · simp [bumpWord, getCount, hk, hw, ih]

theorem getCount_foldl_bumpWord (ts : List Str) :
    ∀ (m : WordCounts) (w : Str),
      getCount (ts.foldl bumpWord m) w = getCount m w + ts.count w := by
  induction ts with
  | nil => simp
  | cons a t ih =>
    intro m w
    rw [List.foldl_cons, ih, getCount_bumpWord, count_cons_str]
    omega

theorem getCount_upsertAdd (m : WordCounts) (u w : Str) (n : Nat) :
    getCount (upsertAdd m u n) w = getCount m w + (if u = w then n else 0) := by
  induction m with
  | nil => by_cases h : u = w <;> simp [upsertAdd, getCount, h]
  | cons e t ih =>
    obtain ⟨k, v⟩ := e
    by_cases hk : k = u
    · subst hk
      by_cases hw : k = w <;> simp [upsertAdd, getCount, hw]
    · by_cases hw : k = w
      · subst hw
        have huk : ¬ u = k := fun h => hk h.symm
        simp [upsertAdd, getCount, hk, huk]
      · simp [upsertAdd, getCount, hk, hw, ih]

/-- The weight a word-count list assigns to a word, summed over all of its
entries with that key (for the lists built here the key is unique). -/
def sumFor (w : Str) (l : WordCounts) : Nat :=
  (l.map fun e => if e.1 = w then e.2 else 0).sum

theorem getCount_foldl_upsertAdd (l : WordCounts) :
    ∀ (m : WordCounts) (w : Str),
      getCount (l.foldl (fun acc e => upsertAdd acc e.1 e.2) m) w
        = getCount m w + sumFor w l := by
  induction l with
  | nil => simp [sumFor]
  | cons e t ih =>
    intro m w
    rw [List.foldl_cons, ih, getCount_upsertAdd]
    simp [sumFor]
    omega

theorem sumFor_bumpWord (m : WordCounts) (u w : Str) :
    sumFor w (bumpWord m u) = sumFor w m + (if u = w then 1 else 0) := by
  induction m with
  | nil => by_cases h : u = w <;> simp [bumpWord, sumFor, h]
  | cons e t ih =>
    obtain ⟨k, v⟩ := e
    by_cases hk : k = u
    · subst hk
      by_cases hw : k = w
      · simp [bumpWord, sumFor, hw]
        omega
      · simp [bumpWord, sumFor, hw]
    · by_cases hw : k = w
      · subst hw
        simp only [bumpWord, if_neg hk, sumFor, List.map_cons, List.sum_cons] at *
        simp [ih]
        omega
      · simp only [bumpWord, if_neg hk, sumFor, List.map_cons, List.sum_cons] at *
        simp [ih]
        omega

theorem sumFor_foldl_bumpWord (ts : List Str) :
    ∀ (m : WordCounts) (w : Str),
      sumFor w (ts.foldl bumpWord m) = sumFor w m + ts.count w := by
  induction ts with
  | nil => simp
  | cons a t ih =>
    intro m w
    rw [List.foldl_cons, ih, sumFor_bumpWord, count_cons_str]
    omega

theorem sumFor_localWordFreq (c : Str) (w : Str) :
    sumFor w (localWordFreq c) = (survivors c).count w := by
  unfold localWordFreq
  rw [sumFor_foldl_bumpWord]
  simp [sumFor]

theorem getCount_countDocTokens (m : WordCounts) (c : Str) (w : Str)
    (hw : isStopWord w = false) :
    getCount (countDocTokens m c) w = getCount m w + occurrences w c := by
  unfold countDocTokens occurrences
  rw [getCount_foldl_bumpWord]
  unfold survivors
  rw [count_filter_of_pred (by simp [hw])]

theorem getCount_foldl_countDocTokens (l : List Str) :
    ∀ (m : WordCounts) (w : Str), isStopWord w = false →
      getCount (l.foldl countDocTokens m) w
        = getCount m w + (l.map (occurrences w)).sum := by
  induction l with
  | nil => simp
  | cons c t ih =>
    intro m w hw
    rw [List.foldl_cons, ih _ _ hw, getCount_countDocTokens _ _ _ hw]
    simp
    omega

/-! ## Claims C1 and C6 -/

/-- The word of the C1 scenario. -/
def axisnvrW : Str := ("axisnvr").toList

/-- Three documents containing the scenario word 1, 1 and 3 times, the first
two with contents of at most 20 characters (which the rebuild query skips). -/
def exDocsC1 : List DocumentRow :=
  [⟨1, some (("axisnvr").toList)⟩,
   ⟨2, some (("axisnvr").toList)⟩,
   ⟨3, some (("axisnvr axisnvr axisnvr").toList)⟩]

/-- Three documents containing the scenario word 1, 1 and 3 times, all with
contents longer than 20 characters. -/
def scenDocsC1 : List DocumentRow :=
  [⟨1, some (("axisnvr appears here once in document one").toList)⟩,
   ⟨2, some (("axisnvr appears once again in document two").toList)⟩,
   ⟨3, some (("axisnvr axisnvr axisnvr appears three times").toList)⟩]

/-- C1 (counterexample): the claim says the stored count after
`rebuild_word_counts` equals the sum of occurrences over the contents of ALL
documents of the shard; the rebuild query skips documents whose content has
at most 20 characters, so for a shard with the scenario word occurring
1, 1 and 3 times (the first two contents being 7 characters long) the stored
count is 3 while the sum over all documents is 5. -/
theorem C1_rebuild_word_counts_counterexample :
    getCount (rebuild_word_counts exDocsC1) axisnvrW
      ≠ totalOccurrencesAll axisnvrW exDocsC1 := by
  rw [rebuild_word_counts_eq]
  decide

/-- C1 (amended): after `rebuild_word_counts` completes on a shard, for every
word of at least 3 lowercase alphabetic characters that is not in the stop
list, the stored count equals the sum of its occurrences across the contents
of all documents in the shard whose content is non-NULL and longer than 20
characters (occurrence count, not document count). -/
theorem C1_rebuild_word_counts (docs : List DocumentRow) (w : Str)
    (_hgood : goodToken w = true) (hstop : isStopWord w = false) :
    getCount (rebuild_word_counts docs) w = totalOccurrencesLong w docs := by
  rw [rebuild_word_counts_eq, getCount_foldl_countDocTokens _ _ _ hstop]
  simp [totalOccurrencesLong, getCount]

/-- Witness for C1: on a shard with 3 documents (all contents longer than 20
characters) containing the scenario word 1, 1 and 3 times, the stored count
after rebuild is 5. -/
theorem C1_rebuild_word_counts_witness :
    getCount (rebuild_word_counts scenDocsC1) axisnvrW = 5 := by
  have h := C1_rebuild_word_counts scenDocsC1 axisnvrW (by decide) (by decide)
  rw [h]
  decide

/-- C6: `update_word_counts` changes nothing when the content is shorter than
20 characters; otherwise every word's stored count grows by exactly the
number of its surviving tokens in the content (runs of ≥ 3 lowercase
alphabetic characters, stop list excluded) — which covers
insert-with-initial-count, increment-existing, and words not occurring in
the content being unchanged. -/
theorem C6_update_word_counts :
    (∀ (wc : WordCounts) (content : Str), content.length < 20 →
        update_word_counts wc content = wc) ∧
    (∀ (wc : WordCounts) (content : Str) (w : Str), 20 ≤ content.length →
        getCount (update_word_counts wc content) w
          = getCount wc w + (survivors content).count w) := by
  constructor
  · intro wc content h
    simp [update_word_counts, h]
  · intro wc content w h
    have hlt : ¬ content.length < 20 := by omega
    by_cases hf : (localWordFreq content).isEmpty = true
    · have hfe : localWordFreq content = [] := by simpa using hf
      have h0 := sumFor_localWordFreq content w
      rw [hfe] at h0
      simp only [sumFor, List.map_nil, List.sum_nil] at h0
      simp [update_word_counts, hlt, hf, ← h0]
    · simp [update_word_counts, hlt, hf, getCount_foldl_upsertAdd,
        sumFor_localWordFreq]

/-- A content of fewer than 20 characters. -/
def shortContentC6 : Str := ("tiny").toList

/-- A content of 40 characters containing the scenario word twice. -/
def longContentC6 : Str := ("axisnvr axisnvr words here filling space").toList

/-- Witness for C6: a short content leaves the table untouched; a 40-character
content containing the scenario word twice raises its stored count from 7
to 9. -/
theorem C6_update_word_counts_witness :
    update_word_counts [(axisnvrW, 7)] shortContentC6 = [(axisnvrW, 7)] ∧
    getCount (update_word_counts [(axisnvrW, 7)] longContentC6) axisnvrW = 9 := by
  constructor
  · exact C6_update_word_counts.1 _ _ (by decide)
  · have h := C6_update_word_counts.2 [(axisnvrW, 7)] longContentC6 axisnvrW
      (by decide)
    rw [h]
    decide

/-! ## Query expander (`company_abbreviations.py`) -/

/-- Association-list lookup, modelling a Python dict read (`d.get(k)` /
`k in d` + `d[k]`). -/
def lookupAL : List (Str × α) → Str → Option α
  | [], _ => none
  | (k, v) :: t, w => if k = w then some v else lookupAL t w

/-- Python dict assignment `d[k] = v`: overwrite the existing binding or
append a new one. -/
def setAL : List (Str × α) → Str → α → List (Str × α)
  | [], k, v => [(k, v)]
  | (k0, v0) :: t, k, v =>
    if k0 = k then (k0, v) :: t else (k0, v0) :: setAL t k v

/-- The two mappings of `CompanyAbbreviations`. -/
structure CompanyAbbreviations where
  abbrev_to_keywords : List (Str × List Str)
  keyword_to_abbrev : List (Str × Str)

/-- `CompanyAbbreviations._process_row`: skip rows with fewer than 2 columns
or an empty first column; otherwise register the stripped, lowercased
abbreviation with up to 10 non-empty keywords from the remaining columns,
mapping every keyword back to the abbreviation (last writer wins). -/
def process_row (ca : CompanyAbbreviations) (row : List Str) :
    CompanyAbbreviations :=
  match row with
  | [] => ca
  | c0 :: rest =>
    if rest.isEmpty || c0.isEmpty then ca
    else
      let ab := pyLower (pyStrip c0)
      let kws := (rest.take 10).filterMap fun cell =>
        if cell.isEmpty then none
        else
          let kw := pyLower (pyStrip cell)
          if kw.isEmpty then none else some kw
      let k2a := kws.foldl (fun m kw => setAL m kw ab) ca.keyword_to_abbrev
      if kws.isEmpty then { ca with keyword_to_abbrev := k2a }
      else { abbrev_to_keywords := setAL ca.abbrev_to_keywords ab kws,
             keyword_to_abbrev := k2a }

/-- `if x not in alternatives: alternatives.append(x)`. -/
def addIfNew (l : List Str) (x : Str) : List Str :=
  if x ∈ l then l else l ++ [x]

/-- `get_search_alternatives`, first block: `alternatives = [query]`, then if
the whole lowercased/stripped query is a known abbreviation, append each of
its keywords (guarded against duplicates). -/
def altsStage1 (ca : CompanyAbbreviations) (query : Str) : List Str :=
  match lookupAL ca.abbrev_to_keywords (pyStrip (pyLower query)) with
  | some kws => kws.foldl addIfNew [query]
  | none => [query]

/-- `get_search_alternatives`, second block: if the whole query is a known
keyword, append its abbreviation (guarded against duplicates). -/
def altsStage2 (ca : CompanyAbbreviations) (query : Str) : List Str :=
  match lookupAL ca.keyword_to_abbrev (pyStrip (pyLower query)) with
  | some ab => addIfNew (altsStage1 ca query) ab
  | none => altsStage1 ca query

/-- `get_search_alternatives`, per-word body: when the word is an
abbreviation, append the query with that word's first occurrence replaced by
each keyword; when it is a keyword, append the query with the word replaced
by its abbreviation. -/
def altsWordStep (ca : CompanyAbbreviations) (query : Str)
    (acc : List Str) (word : Str) : List Str :=
  let acc1 := match lookupAL ca.abbrev_to_keywords (pyLower word) with
    | some kws =>
      kws.foldl (fun a kw => addIfNew a (pyReplaceFirst query word kw)) acc
    | none => acc
  match lookupAL ca.keyword_to_abbrev (pyLower word) with
  | some ab => addIfNew acc1 (pyReplaceFirst query word ab)
  | none => acc1

/-- `CompanyAbbreviations.get_search_alternatives`
(`company_abbreviations.py` lines 98-143). -/
def get_search_alternatives (ca : CompanyAbbreviations) (query : Str) :
    List Str :=
  (pySplit query).foldl (altsWordStep ca query) (altsStage2 ca query)

theorem addIfNew_nodup {l : List Str} {x : Str} (h : l.Nodup) :
    (addIfNew l x).Nodup := by
  by_cases hx : x ∈ l
  · simpa [addIfNew, hx] using h
  · simp [addIfNew, hx, List.nodup_append, h]

theorem addIfNew_head {l : List Str} {x a : Str} (h : l.head? = some a) :
    (addIfNew l x).head? = some a := by
  by_cases hx : x ∈ l
  · simpa [addIfNew, hx] using h
  · cases l with
    | nil => simp at h
    | cons b t => simpa [addIfNew, hx] using h

theorem foldl_addIfNew_nodup (xs : List Str) :
    ∀ {l : List Str}, l.Nodup → (xs.foldl addIfNew l).Nodup := by
  induction xs with
  | nil => intro l h; simpa using h
  | cons x t ih => intro l h; exact ih (addIfNew_nodup h)

theorem foldl_addIfNew_head (xs : List Str) :
    ∀ {l : List Str} {a : Str}, l.head? = some a →
      (xs.foldl addIfNew l).head? = some a := by
  induction xs with
  | nil => intro l a h; simpa using h
  | cons x t ih => intro l a h; exact ih (addIfNew_head h)

theorem foldl_guarded_addIfNew_nodup (f : Str → Str) (xs : List Str) :
    ∀ {l : List Str}, l.Nodup →
      (xs.foldl (fun a kw => addIfNew a (f kw)) l).Nodup := by
  induction xs with
  | nil => intro l h; simpa using h
  | cons x t ih => intro l h; exact ih (addIfNew_nodup h)

theorem foldl_guarded_addIfNew_head (f : Str → Str) (xs : List Str) :
    ∀ {l : List Str} {a : Str}, l.head? = some a →
      (xs.foldl (fun a kw => addIfNew a (f kw)) l).head? = some a := by
  induction xs with
  | nil => intro l a h; simpa using h
  | cons x t ih => intro l a h; exact ih (addIfNew_head h)

theorem altsStage2_head (ca : CompanyAbbreviations) (query : Str) :
    (altsStage2 ca query).head? = some query := by
  have h1 : (altsStage1 ca query).head? = some query := by
    unfold altsStage1
    cases lookupAL ca.abbrev_to_keywords (pyStrip (pyLower query)) with
    | none => rfl
    | some kws => exact foldl_addIfNew_head kws rfl
  unfold altsStage2
  cases lookupAL ca.keyword_to_abbrev (pyStrip (pyLower query)) with
  | none => exact h1
  | some ab => exact addIfNew_head h1

theorem altsStage2_nodup (ca : CompanyAbbreviations) (query : Str) :
    (altsStage2 ca query).Nodup := by
  have h1 : (altsStage1 ca query).Nodup := by
    unfold altsStage1
    cases lookupAL ca.abbrev_to_keywords (pyStrip (pyLower query)) with
    | none => simp
    | some kws => exact foldl_addIfNew_nodup kws (by simp)
  unfold altsStage2
  cases lookupAL ca.keyword_to_abbrev (pyStrip (pyLower query)) with
  | none => exact h1
  | some ab => exact addIfNew_nodup h1

theorem altsWordStep_pres (ca : CompanyAbbreviations) (query : Str)
    {acc : List Str} {a : Str} (word : Str)
    (h : acc.head? = some a ∧ acc.Nodup) :
    (altsWordStep ca query acc word).head? = some a ∧
      (altsWordStep ca query acc word).Nodup := by
  unfold altsWordStep
  have h1 :
      ∀ m : List Str, m.head? = some a ∧ m.Nodup →
        ∀ o : Option Str,
          ((match o with
            | some ab => addIfNew m (pyReplaceFirst query word ab)
            | none => m).head? = some a ∧
           (match o with
            | some ab => addIfNew m (pyReplaceFirst query word ab)
            | none => m).Nodup) := by
    intro m hm o
    cases o with
    | none => exact hm
    | some ab => exact ⟨addIfNew_head hm.1, addIfNew_nodup hm.2⟩
  cases lookupAL ca.abbrev_to_keywords (pyLower word) with
  | none => exact h1 acc h _
  | some kws =>
    exact h1 _ ⟨foldl_guarded_addIfNew_head _ kws h.1,
      foldl_guarded_addIfNew_nodup _ kws h.2⟩ _

/-- The abbreviation table of the C5 scenario, built by registering one row. -/
def fooCA : CompanyAbbreviations :=
  process_row ⟨[], []⟩ [("foo").toList, ("bar").toList, ("baz").toList]

/-- C5: `get_search_alternatives` always returns an ordered, de-duplicated
list whose first element is the literal query; and with the abbreviation
f-o-o registered for the keywords b-a-r and b-a-z, the query f-o-o yields
exactly those three alternatives in order. -/
theorem C5_get_search_alternatives :
    (∀ (ca : CompanyAbbreviations) (query : Str),
        (get_search_alternatives ca query).head? = some query ∧
        (get_search_alternatives ca query).Nodup) ∧
    get_search_alternatives fooCA (("foo").toList)
      = [("foo").toList, ("bar").toList, ("baz").toList] := by
  constructor
  · intro ca query
    unfold get_search_alternatives
    have base : (altsStage2 ca query).head? = some query ∧
        (altsStage2 ca query).Nodup :=
      ⟨altsStage2_head ca query, altsStage2_nodup ca query⟩
    generalize altsStage2 ca query = init at base
    induction pySplit query generalizing init with
    | nil => simpa using base
    | cons w ws ih =>
      rw [List.foldl_cons]
      exact ih _ (altsWordStep_pres ca query w base)
  · decide

/-! ## Shard registry (`database_manager.py`) -/

/-- `/` or `\` path separator. -/
def isPathSep (c : Char) : Bool := c == '/' || c == '\\'

/-- `Path(p).name`: the final path component. -/
def pyName (p : Str) : Str :=
  p.foldl (fun acc c => if isPathSep c then [] else acc ++ [c]) []

/-- The ambient filesystem and process environment the registry functions
read: path canonicalization (`Path.resolve`), existence checks, the
modification time rendered by `str(...st_mtime)`, the MD5 hex digest of
`generate_db_filename`, and the `databases/` folder location. -/
structure FSEnv where
  canon : Str → Str
  pathExists : Str → Bool
  mtimeStr : Str → Str
  md5hex : Str → Str
  databases_folder : Str

/-- One value of the persisted `index.json` mapping. -/
structure IndexEntry where
  db_path : Str
  db_filename : Str
  added_date : Option Str
deriving DecidableEq

/-- The persisted `index.json` mapping, folder path → entry. -/
abbrev DbIndex := List (Str × IndexEntry)

/-- `generate_db_filename`: `db_` + first 12 hex digits of the MD5 of the
folder path + `.sqlite3`. -/
def generate_db_filename (env : FSEnv) (folder_path : Str) : Str :=
  ("db_").toList ++ (env.md5hex folder_path).take 12 ++ (".sqlite3").toList

/-- `get_database_path`: the generated filename inside the databases folder
(the path join rendered with a forward slash). -/
def get_database_path (env : FSEnv) (folder_path : Str) : Str :=
  env.databases_folder ++ '/' :: generate_db_filename env folder_path

/-- The error raised by `add_indexed_folder`
(`FileNotFoundError(f"Database file not found: {db_path}")`). -/
inductive RegError where
  | fileNotFound (db_path : Str)
deriving DecidableEq

/-- `add_indexed_folder` (`database_manager.py` lines 75-111).  The loaded
`index.json` is the `index` argument; the pair returned is the outcome
(`Except` models the raised `FileNotFoundError` propagating to the caller)
together with the mapping as persisted by `save_index` when the function
returns (unchanged when it raises or the folder is already present). -/
def add_indexed_folder (env : FSEnv) (index : DbIndex) (folder_path : Str)
    (existing_db_path : Option Str) : Except RegError Str × DbIndex :=
  let fp := env.canon folder_path
  match lookupAL index fp with
  | some entry => (.ok entry.db_path, index)
  | none =>
    let dbPathE : Except RegError Str :=
      match existing_db_path with
      | some loc =>
        let l := env.canon loc
        if env.pathExists l then .ok l else .error (.fileNotFound l)
      | none => .ok (get_database_path env fp)
    match dbPathE with
    | .error e => (.error e, index)
    | .ok db_path =>
      let entry : IndexEntry :=
        { db_path := db_path
          db_filename := pyName db_path
          added_date :=
            if env.pathExists db_path then some (env.mtimeStr db_path)
            else none }
      (.ok db_path, setAL index fp entry)

theorem lookupAL_setAL_self (index : List (Str × α)) (k : Str) (v : α) :
    lookupAL (setAL index k v) k = some v := by
  induction index with
  | nil => simp [setAL, lookupAL]
  | cons e t ih =>
    obtain ⟨k0, v0⟩ := e
    by_cases hk : k0 = k
    · simp [setAL, lookupAL, hk]
    · simp [setAL, lookupAL, hk, ih]

/-- C4: folder registration is idempotent — whenever a call to
`add_indexed_folder` succeeds, an immediately repeated call with the same
arguments returns the same shard location and leaves the registry mapping
unchanged. -/
theorem C4_add_indexed_folder_idempotent (env : FSEnv) (index : DbIndex)
    (folder_path : Str) (existing_db_path : Option Str) (loc : Str)
    (index1 : DbIndex)
    (h : add_indexed_folder env index folder_path existing_db_path
          = (.ok loc, index1)) :
    add_indexed_folder env index1 folder_path existing_db_path
      = (.ok loc, index1) := by
  simp only [add_indexed_folder] at h ⊢
  cases h0 : lookupAL index (env.canon folder_path) with
  | some entry =>
    rw [h0] at h
    simp only [Prod.mk.injEq, Except.ok.injEq] at h
    obtain ⟨h1, h2⟩ := h
    subst h2
    subst h1
    rw [h0]
  | none =>
    rw [h0] at h
    cases existing_db_path with
    | none =>
      dsimp only at h
      simp only [Prod.mk.injEq, Except.ok.injEq] at h
      obtain ⟨h1, h2⟩ := h
      subst h1
      subst h2
      rw [lookupAL_setAL_self]
    | some loc0 =>
      dsimp only at h
      by_cases hex : env.pathExists (env.canon loc0) = true
      · rw [if_pos hex] at h
        dsimp only at h
        simp only [Prod.mk.injEq, Except.ok.injEq] at h
        obtain ⟨h1, h2⟩ := h
        subst h1
        subst h2
        rw [lookupAL_setAL_self]
      · rw [if_neg hex] at h
        simp at h

/-- C10: when the folder path is already registered, `add_indexed_folder`
returns the stored location for every value of `existing_db_path` — the
argument is ignored, no existence check happens (the conclusion holds for
every `env.pathExists`, in particular one where the named file is missing),
no `FileNotFoundError` is raised and the mapping is not rewritten. -/
theorem C10_add_indexed_folder_registered (env : FSEnv) (index : DbIndex)
    (folder_path : Str) (e : IndexEntry) (existing_db_path : Option Str)
    (h : lookupAL index (env.canon folder_path) = some e) :
    add_indexed_folder env index folder_path existing_db_path
      = (.ok e.db_path, index) := by
  simp only [add_indexed_folder]
  rw [h]

/-- C9: for an unregistered folder path, (a) an `existing_db_path` that does
not exist on disk makes the call fail with `FileNotFoundError` and leaves
the registry unchanged, and (b) without `existing_db_path` the call succeeds
with the location derived from the MD5 hash of the canonical path inside the
databases folder — a value independent of the registry state, hence stable
across runs. -/
theorem C9_add_indexed_folder_location (env : FSEnv) (index : DbIndex)
    (folder_path : Str)
    (h : lookupAL index (env.canon folder_path) = none) :
    (∀ loc : Str, env.pathExists (env.canon loc) = false →
        add_indexed_folder env index folder_path (some loc)
          = (.error (.fileNotFound (env.canon loc)), index)) ∧
    (add_indexed_folder env index folder_path none).1
      = .ok (get_database_path env (env.canon folder_path)) ∧
    (∀ index2 : DbIndex, lookupAL index2 (env.canon folder_path) = none →
        (add_indexed_folder env index folder_path none).1
          = (add_indexed_folder env index2 folder_path none).1) := by
  refine ⟨?_, ?_, ?_⟩
  · intro loc hloc
    simp only [add_indexed_folder]
    rw [h]
    simp [hloc]
  · simp only [add_indexed_folder]
    rw [h]
  · intro index2 h2
    simp only [add_indexed_folder]
    rw [h, h2]

/-! Concrete environment for the registry witnesses: canonicalization is the
identity, nothing exists on disk, and the hash is a fixed digest. -/

/-- Witness environment. -/
def envW : FSEnv where
  canon := fun p => p
  pathExists := fun _ => false
  mtimeStr := fun _ => []
  md5hex := fun _ => ("0123456789abcdef0123456789abcdef").toList
  databases_folder := ("dbs").toList

/-- The location `envW` derives for the folder path f. -/
def dbPathW : Str := ("dbs/db_0123456789ab.sqlite3").toList

/-- The registry entry created for the folder path f under `envW`. -/
def entryW : IndexEntry :=
  { db_path := dbPathW
    db_filename := ("db_0123456789ab.sqlite3").toList
    added_date := none }

/-- Witness for C4: registering the one-character folder path f twice under
`envW` returns the same location both times and leaves the one-entry
registry unchanged. -/
theorem C4_add_indexed_folder_idempotent_witness :
    add_indexed_folder envW [(("f").toList, entryW)] (("f").toList) none
      = (.ok dbPathW, [(("f").toList, entryW)]) :=
  C4_add_indexed_folder_idempotent envW [] (("f").toList) none dbPathW
    [(("f").toList, entryW)] rfl

/-- Witness for C10: with the folder path f registered, a call passing a
missing `existing_db_path` (nothing exists under `envW`) still returns the
stored location with no error and no registry rewrite. -/
theorem C10_add_indexed_folder_registered_witness :
    add_indexed_folder envW [(("f").toList, entryW)] (("f").toList)
        (some (("missing.sqlite3").toList))
      = (.ok dbPathW, [(("f").toList, entryW)]) :=
  C10_add_indexed_folder_registered envW [(("f").toList, entryW)]
    (("f").toList) entryW (some (("missing.sqlite3").toList)) rfl

/-- Witness for C9: on an empty registry, linking a missing explicit database
fails with `FileNotFoundError` and adds no entry, while registration without
an explicit location derives the hash-based path. -/
theorem C9_add_indexed_folder_location_witness :
    add_indexed_folder envW [] (("f").toList)
        (some (("missing.sqlite3").toList))
      = (.error (.fileNotFound (("missing.sqlite3").toList)), []) ∧
    (add_indexed_folder envW [] (("f").toList) none).1 = .ok dbPathW := by
  have h := C9_add_indexed_folder_location envW [] (("f").toList) rfl
  exact ⟨h.1 (("missing.sqlite3").toList) rfl, h.2.1⟩

/-! ## Pagination of merged search results (`server.py`) -/

/-- The pagination-related fields of the `/api/search` JSON response. -/
structure SearchPage (α : Type) where
  results : List α
  count : Nat
  displayed : Nat
  page : Nat
  per_page : Nat
  total_pages : Nat
deriving DecidableEq

/-- `server.py` `search`, lines 74-76 and 239-260: `offset = (page-1)*per_page`,
`paginated_results = all_results[offset : offset+per_page]`,
`total_pages = (total_count + per_page - 1) // per_page`, applied to the
already merged and sorted `all_results`. -/
def paginate_results (all_results : List α) (page per_page : Nat) :
    SearchPage α :=
  let offset := (page - 1) * per_page
  let total_count := all_results.length
  let paginated := (all_results.drop offset).take per_page
  { results := paginated
    count := total_count
    displayed := paginated.length
    page := page
    per_page := per_page
    total_pages := (total_count + per_page - 1) / per_page }

theorem ceil_mul_ge (len pp : Nat) (hpp : 0 < pp) :
    len ≤ ((len + pp - 1) / pp) * pp := by
  by_contra hcon
  push_neg at hcon
  have h1 : ((len + pp - 1) / pp) * pp + 1 ≤ len := hcon
  have h2 : ((len + pp - 1) / pp + 1) * pp ≤ len + pp - 1 := by
    have := Nat.add_le_add_right h1 (pp - 1)
    calc ((len + pp - 1) / pp + 1) * pp
        = (len + pp - 1) / pp * pp + pp := by ring
      _ ≤ len + pp - 1 := by omega
  have h3 : (len + pp - 1) / pp + 1 ≤ (len + pp - 1) / pp :=
    (Nat.le_div_iff_mul_le hpp).mpr h2
  omega

theorem flatten_pages_take (pp : Nat) (l : List α) :
    ∀ n : Nat,
      ((List.range n).map fun i => (l.drop (i * pp)).take pp).flatten
        = l.take (n * pp) := by
  intro n
  induction n with
  | zero => simp
  | succ n ih =>
    rw [List.range_succ, List.map_append, List.flatten_append, ih]
    simp only [List.map_cons, List.map_nil, List.flatten_cons, List.flatten_nil,
      List.append_nil]
    rw [Nat.succ_mul, List.take_add]

/-- C2: for every merged, sorted result list and all `page ≥ 1`, `per_page ≥ 1`,
the search response holds the slice starting at `(page-1)*per_page` of at
most `per_page` elements, `count` is the full merged size, `total_pages` is
the ceiling of `count / per_page`, and concatenating the result lists of
pages `1 .. total_pages` in order reproduces the merged, sorted list exactly
— no gaps, no duplicates. -/
theorem C2_paginate_results (l : List α) (page per_page : Nat)
    (_hp : 1 ≤ page) (hpp : 1 ≤ per_page) :
    (paginate_results l page per_page).results
        = (l.drop ((page - 1) * per_page)).take per_page ∧
    (paginate_results l page per_page).results.length ≤ per_page ∧
    (paginate_results l page per_page).count = l.length ∧
    (paginate_results l page per_page).total_pages
        = (l.length + per_page - 1) / per_page ∧
    ((List.range (paginate_results l page per_page).total_pages).map
        fun i => (paginate_results l (i + 1) per_page).results).flatten = l := by
  refine ⟨rfl, List.length_take_le _ _, rfl, rfl, ?_⟩
  have hshape :
      ((List.range ((l.length + per_page - 1) / per_page)).map
          fun i => (paginate_results l (i + 1) per_page).results).flatten
        = l.take (((l.length + per_page - 1) / per_page) * per_page) := by
    rw [← flatten_pages_take]
    simp [paginate_results]
  show ((List.range ((l.length + per_page - 1) / per_page)).map
      fun i => (paginate_results l (i + 1) per_page).results).flatten = l
  rw [hshape]
  exact List.take_of_length_le (ceil_mul_ge l.length per_page hpp)

/-- The two hits of the C2 scenario: one matching document from each of two
shards, already merged and sorted. -/
def twoHitsC2 : List Nat := [10, 20]

/-- Witness for C2: two shards with one matching document each, requested
with `per_page = 1`, `page = 1`: one result is returned, `count = 2` and
`total_pages = 2`, and pages 1 and 2 together restore the merged list. -/
theorem C2_paginate_results_witness :
    (paginate_results twoHitsC2 1 1).results = [10] ∧
    (paginate_results twoHitsC2 1 1).count = 2 ∧
    (paginate_results twoHitsC2 1 1).total_pages = 2 ∧
    ((List.range 2).map fun i => (paginate_results twoHitsC2 (i + 1) 1).results).flatten
      = twoHitsC2 := by
  have h := C2_paginate_results twoHitsC2 1 1 (by decide) (by decide)
  refine ⟨?_, h.2.2.1.trans (by decide), ?_, ?_⟩
  · rw [h.1]
    decide
  · rw [h.2.2.2.1]
    decide
  · have h5 := h.2.2.2.2
    rw [h.2.2.2.1] at h5
    simpa using h5

/-! ## Federated search over shards (`server.py`) -/

/-- One registered shard as the `/api/search` handler sees it: its database
path, whether the storage file exists on disk, and the outcome of running
the search SQL on it (`Except.error` models a raised exception, carrying
`str(e)`). -/
structure Shard (α : Type) where
  db_path : Str
  storage_exists : Bool
  query_result : Except Str (List α)

/-- `get_all_db_connections` (`server.py` lines 27-38): only registered
databases whose file exists are opened. -/
def get_all_db_connections (shards : List (Shard α)) : List (Shard α) :=
  shards.filter (·.storage_exists)

/-- The warning printed by the per-shard exception handler
(`print(f"Error querying database ...")`, `server.py` line 226). -/
def queryWarning (db_path : Str) (e : Str) : Str :=
  ("Error querying database ").toList ++ db_path ++ (": ").toList ++ e

/-- The per-shard query loop (`server.py` lines 192-227): collect each
succeeding shard's rows into `all_results`; a shard whose query raises is
skipped after printing a warning, and the loop continues. -/
def queryShards (conns : List (Shard α)) : List α × List Str :=
  conns.foldl
    (fun acc s =>
      match s.query_result with
      | .ok hits => (acc.1 ++ hits, acc.2)
      | .error e => (acc.1, acc.2 ++ [queryWarning s.db_path e]))
    ([], [])

/-- The explicit no-index error payload (`server.py` lines 81-87, returned
with HTTP 404). -/
def no_databases_msg : Str :=
  ("No databases found. Please index some folders first.").toList

/-- The shard-collection half of the `/api/search` handler: the explicit
error when no registered database file exists, otherwise the merged hits
plus the warnings from failing shards. -/
def search_federated (shards : List (Shard α)) :
    Except Str (List α × List Str) :=
  let conns := get_all_db_connections shards
  if conns.isEmpty then .error no_databases_msg
  else .ok (queryShards conns)

/-- The rows a shard contributes to the merge. -/
def okHits (s : Shard α) : List α :=
  match s.query_result with
  | .ok h => h
  | .error _ => []

/-- The warnings a shard contributes. -/
def shardWarnings (s : Shard α) : List Str :=
  match s.query_result with
  | .ok _ => []
  | .error e => [queryWarning s.db_path e]

theorem queryShards_go (conns : List (Shard α)) :
    ∀ (h : List α) (w : List Str),
      conns.foldl
        (fun acc s =>
          match s.query_result with
          | .ok hits => (acc.1 ++ hits, acc.2)
          | .error e => (acc.1, acc.2 ++ [queryWarning s.db_path e]))
        (h, w)
      = (h ++ (conns.map okHits).flatten, w ++ (conns.map shardWarnings).flatten) := by
  induction conns with
  | nil => simp
  | cons s t ih =>
    intro h w
    rw [List.foldl_cons]
    cases hq : s.query_result with
    | ok hits => simp [hq, ih, okHits, shardWarnings]
    | error e => simp [hq, ih, okHits, shardWarnings]

theorem queryShards_spec (conns : List (Shard α)) :
    queryShards conns
      = ((conns.map okHits).flatten, (conns.map shardWarnings).flatten) := by
  unfold queryShards
  rw [queryShards_go]
  simp

/-- The two shards of the C3 counterexample: the first is registered but its
storage file is missing, the second is healthy with one hit. -/
def missingShardC3 : Shard Nat := ⟨("p1").toList, false, .ok [1]⟩

/-- The healthy shard of the C3 counterexample. -/
def liveShardC3 : Shard Nat := ⟨("p2").toList, true, .ok [2]⟩

/-- C3 (counterexample): the claim says a shard with missing storage is
skipped "with a warning".  With one registered shard whose storage file is
missing and one healthy shard, the request succeeds with the healthy
shard's hits and an EMPTY warning list: missing-storage shards are excluded
silently (only shards whose query raises get a warning). -/
theorem C3_search_federated_counterexample :
    ¬ (∀ (hits : List Nat) (warns : List Str),
        search_federated [missingShardC3, liveShardC3] = .ok (hits, warns) →
          warns ≠ []) := by
  intro hclaim
  exact hclaim [2] [] rfl rfl

/-- C3 (amended): a registered shard whose storage file is missing is
silently excluded; a reachable shard whose query raises is skipped with a
warning naming its database; in both cases the request still succeeds,
returning exactly the merged hits of the remaining reachable shards; and
when zero registered shards are reachable the handler returns the explicit
no-index error response, not an empty success. -/
theorem C3_search_federated (shards : List (Shard α)) :
    (get_all_db_connections shards = [] →
        search_federated shards = .error no_databases_msg) ∧
    (get_all_db_connections shards ≠ [] →
        search_federated shards
          = .ok (((get_all_db_connections shards).map okHits).flatten,
                 ((get_all_db_connections shards).map shardWarnings).flatten)) ∧
    (∀ s ∈ shards, s.storage_exists = true →
        ∀ e, s.query_result = .error e →
          queryWarning s.db_path e
            ∈ (queryShards (get_all_db_connections shards)).2) := by
  refine ⟨?_, ?_, ?_⟩
  · intro h
    simp [search_federated, h]
  · intro h
    have hne : (get_all_db_connections shards).isEmpty = false := by
      simpa [List.isEmpty_iff] using h
    simp [search_federated, hne, queryShards_spec]
  · intro s hs hex e he
    have hmem : s ∈ get_all_db_connections shards :=
      List.mem_filter.mpr ⟨hs, hex⟩
    rw [queryShards_spec]
    simp only [List.mem_flatten]
    refine ⟨shardWarnings s, List.mem_map_of_mem _ hmem, ?_⟩
    simp [shardWarnings, he]

/-- A shard whose storage exists but whose query raises. -/
def failingShardC3 : Shard Nat :=
  ⟨("p3").toList, true, .error (("disk I-O error").toList)⟩

/-- Witness for C3: with no reachable shard the handler returns the explicit
error; with one failing and one healthy reachable shard the request
succeeds with the healthy hits and the failing shard is warned about. -/
theorem C3_search_federated_witness :
    search_federated [missingShardC3] = .error no_databases_msg ∧
    search_federated [failingShardC3, liveShardC3]
      = .ok ([2], [queryWarning (("p3").toList) (("disk I-O error").toList)]) ∧
    queryWarning (("p3").toList) (("disk I-O error").toList)
      ∈ (queryShards (get_all_db_connections [failingShardC3, liveShardC3])).2 := by
  refine ⟨(C3_search_federated [missingShardC3]).1 rfl, ?_, ?_⟩
  · have h := (C3_search_federated [failingShardC3, liveShardC3]).2.1
      (by simp [get_all_db_connections, failingShardC3, liveShardC3])
    rw [h]
    rfl
  · exact (C3_search_federated [failingShardC3, liveShardC3]).2.2
      failingShardC3 (by simp) rfl (("disk I-O error").toList) rfl

/-! ## Shard-write retry behaviour (`indexer.py`) -/

/-- The outcome of one attempt to connect-and-write a document to the shard
database: success, or a raised `sqlite3.OperationalError` carrying
`str(e)`. -/
inductive WriteOutcome where
  | ok
  | opErr (msg : Str)

/-- `"locked" in str(e).lower()`. -/
def isLockedMsg (m : Str) : Bool :=
  containsSubstring (("locked").toList) (pyLower m)

/-- `max_retries = 3` in `index_document`. -/
def max_retries : Nat := 3

/-- `retry_delay = 1` (seconds) in `index_document`. -/
def retry_delay : Nat := 1

/-- The `for attempt in range(max_retries)` loop of
`DocumentIndexer.index_document` (`indexer.py` lines 646-689), with the
write attempt abstracted as `db attempt`.  The argument list is the list of
remaining attempt indices, so `rest.isEmpty` is exactly
`¬ (attempt < max_retries - 1)`.  A locked error on a non-final attempt
sleeps `retry_delay` and continues; anything else re-raises, which the
enclosing `except` of `index_document` converts into a per-file failure
(`Except.error` with the exception text) — it never escapes further.  The
second component records the sleeps performed. -/
def index_write_attempts (db : Nat → WriteOutcome) :
    List Nat → Except Str Unit × List Nat
  | [] => (.error [], [])
  | a :: rest =>
    match db a with
    | .ok => (.ok (), [])
    | .opErr m =>
      if isLockedMsg m && !rest.isEmpty then
        let r := index_write_attempts db rest
        (r.1, retry_delay :: r.2)
      else
        (.error m, [])

/-- The write portion of `index_document`: run the loop over
`range(max_retries)`. -/
def index_document_write (db : Nat → WriteOutcome) :
    Except Str Unit × List Nat :=
  index_write_attempts db [0, 1, 2]

/-- `DocumentIndexer.write_document_to_db` (`indexer.py` lines 694-740), the
writer used by the parallel pipeline: one single attempt inside
`try/except`; any exception — locked or not — is caught at once and turned
into a `False` return for that file.  There is no retry loop. -/
def write_document_to_db (db : Nat → WriteOutcome) : Bool :=
  match db 0 with
  | .ok => true
  | .opErr _ => false

/-- The attempt outcomes of the C8 counterexample: the first attempt hits a
locked database, every later attempt would succeed. -/
def lockedThenOkDb : Nat → WriteOutcome :=
  fun k => if k = 0 then .opErr (("database is locked").toList) else .ok

/-- C8 (counterexample): the claim says EVERY shard write that encounters a
transient locked condition is retried up to 3 times before failure is
surfaced.  The parallel-path writer `write_document_to_db` surfaces failure
immediately on a locked error without any retry: with a database that is
locked on the first attempt and free afterwards it fails, even though the
sequential path `index_document` (which does retry) succeeds after one
1-second sleep on the same attempt outcomes. -/
theorem C8_write_retry_counterexample :
    write_document_to_db lockedThenOkDb = false ∧
    lockedThenOkDb 1 = .ok ∧
    isLockedMsg (("database is locked").toList) = true ∧
    index_document_write lockedThenOkDb = (.ok (), [retry_delay]) := by
  refine ⟨rfl, rfl, by decide, ?_⟩
  have h0 : lockedThenOkDb 0 = .opErr (("database is locked").toList) := rfl
  have h1 : lockedThenOkDb 1 = .ok := rfl
  unfold index_document_write
  simp only [index_write_attempts, h0, h1]
  rw [if_pos (by decide)]

/-- The six-way case normal form of the retry loop: at most three attempts,
continuing only on a locked error, accumulating one fixed delay per retry. -/
theorem idx_write_cases (db : Nat → WriteOutcome) :
    index_document_write db =
      match db 0 with
      | .ok => (.ok (), [])
      | .opErr m0 =>
        if isLockedMsg m0 then
          match db 1 with
          | .ok => (.ok (), [retry_delay])
          | .opErr m1 =>
            if isLockedMsg m1 then
              match db 2 with
              | .ok => (.ok (), [retry_delay, retry_delay])
              | .opErr m2 => (.error m2, [retry_delay, retry_delay])
            else (.error m1, [retry_delay])
        else (.error m0, []) := by
  unfold index_document_write
  cases h0 : db 0 with
  | ok => simp [index_write_attempts, h0]
  | opErr m0 =>
    by_cases hl0 : isLockedMsg m0
    · cases h1 : db 1 with
      | ok => simp [index_write_attempts, h0, h1, hl0]
      | opErr m1 =>
        by_cases hl1 : isLockedMsg m1
        · cases h2 : db 2 with
          | ok => simp [index_write_attempts, h0, h1, h2, hl0, hl1]
          | opErr m2 => simp [index_write_attempts, h0, h1, h2, hl0, hl1]
        · simp [index_write_attempts, h0, h1, hl0, hl1]
    · simp [index_write_attempts, h0, hl0]

theorem idx_ok_iff (db : Nat → WriteOutcome) :
    (index_document_write db).1 = .ok () ↔
      (db 0 = .ok ∨
        ∃ m0, db 0 = .opErr m0 ∧ isLockedMsg m0 = true ∧
          (db 1 = .ok ∨
            ∃ m1, db 1 = .opErr m1 ∧ isLockedMsg m1 = true ∧ db 2 = .ok)) := by
  rw [idx_write_cases db]
  cases h0 : db 0 with
  | ok => simp [h0]
  | opErr m0 =>
    by_cases hl0 : isLockedMsg m0
    · cases h1 : db 1 with
      | ok => simp [h0, h1, hl0]
      | opErr m1 =>
        by_cases hl1 : isLockedMsg m1
        · cases h2 : db 2 with
          | ok => simp [h0, h1, h2, hl0, hl1]
          | opErr m2 => simp [h0, h1, h2, hl0, hl1]
        · simp [h0, h1, hl0, hl1]
    · simp [h0, hl0]

theorem idx_sleeps_len (db : Nat → WriteOutcome) :
    (index_document_write db).2.length ≤ max_retries - 1 := by
  rw [idx_write_cases db]
  cases h0 : db 0 with
  | ok => simp [max_retries]
  | opErr m0 =>
    by_cases hl0 : isLockedMsg m0
    · cases h1 : db 1 with
      | ok => simp [hl0, max_retries]
      | opErr m1 =>
        by_cases hl1 : isLockedMsg m1
        · cases h2 : db 2 with
          | ok => simp [hl0, hl1, max_retries]
          | opErr m2 => simp [hl0, hl1, max_retries]
        · simp [hl0, hl1, max_retries]
    · simp [hl0, max_retries]

theorem idx_sleeps_fixed (db : Nat → WriteOutcome) :
    ∀ d ∈ (index_document_write db).2, d = retry_delay := by
  rw [idx_write_cases db]
  cases h0 : db 0 with
  | ok => simp
  | opErr m0 =>
    by_cases hl0 : isLockedMsg m0
    · cases h1 : db 1 with
      | ok => simp [hl0]
      | opErr m1 =>
        by_cases hl1 : isLockedMsg m1
        · cases h2 : db 2 with
          | ok => simp [hl0, hl1]
          | opErr m2 => simp [hl0, hl1]
        · simp [hl0, hl1]
    · simp [hl0]

theorem idx_error_src (db : Nat → WriteOutcome) :
    ∀ m, (index_document_write db).1 = .error m →
      ∃ k, k < max_retries ∧ db k = .opErr m := by
  rw [idx_write_cases db]
  cases h0 : db 0 with
  | ok => simp
  | opErr m0 =>
    by_cases hl0 : isLockedMsg m0
    · cases h1 : db 1 with
      | ok => simp [hl0]
      | opErr m1 =>
        by_cases hl1 : isLockedMsg m1
        · cases h2 : db 2 with
          | ok => simp [hl0, hl1]
          | opErr m2 =>
            intro m hm
            simp [hl0, hl1] at hm
            subst hm
            exact ⟨2, by decide, h2⟩
        · intro m hm
          simp [hl0, hl1] at hm
          subst hm
          exact ⟨1, by decide, h1⟩
    · intro m hm
      simp [hl0] at hm
      subst hm
      exact ⟨0, by decide, h0⟩

theorem wdtd_iff (db : Nat → WriteOutcome) :
    write_document_to_db db = true ↔ db 0 = .ok := by
  cases h0 : db 0 with
  | ok => simp [write_document_to_db, h0]
  | opErr m0 => simp [write_document_to_db, h0]

/-- C8 (amended): in the sequential path (`index_document`) a locked write is
retried with a fixed 1-second delay and at most 3 attempts in total, never
indefinitely, and any final failure is surfaced as a per-file error whose
text comes from one of the attempts; the write succeeds exactly when some
attempt among the first three succeeds with every earlier attempt failing
locked.  In the parallel path (`write_document_to_db`) a failure — locked
included — is surfaced immediately for that file only, without any retry. -/
theorem C8_write_retry (db : Nat → WriteOutcome) :
    ((index_document_write db).1 = .ok () ↔
      (db 0 = .ok ∨
        ∃ m0, db 0 = .opErr m0 ∧ isLockedMsg m0 = true ∧
          (db 1 = .ok ∨
            ∃ m1, db 1 = .opErr m1 ∧ isLockedMsg m1 = true ∧ db 2 = .ok))) ∧
    (index_document_write db).2.length ≤ max_retries - 1 ∧
    (∀ d ∈ (index_document_write db).2, d = retry_delay) ∧
    (∀ m, (index_document_write db).1 = .error m →
        ∃ k, k < max_retries ∧ db k = .opErr m) ∧
    (write_document_to_db db = true ↔ db 0 = .ok) :=
  ⟨idx_ok_iff db, idx_sleeps_len db, idx_sleeps_fixed db,
    idx_error_src db, wdtd_iff db⟩

/-- A database that is permanently locked. -/
def alwaysLockedDb : Nat → WriteOutcome :=
  fun _ => .opErr (("database is locked").toList)

/-- Witness for C8: on a permanently locked database the sequential writer
performs exactly 2 one-second sleeps (3 attempts), surfaces the locked
error as a per-file failure, and the parallel writer reports failure from
its single attempt. -/
theorem C8_write_retry_witness :
    (index_document_write alwaysLockedDb).2.length ≤ max_retries - 1 ∧
    (∀ d ∈ (index_document_write alwaysLockedDb).2, d = retry_delay) ∧
    (∃ k, k < max_retries ∧
        alwaysLockedDb k = .opErr (("database is locked").toList)) ∧
    ¬ (write_document_to_db alwaysLockedDb = true) := by
  have h := C8_write_retry alwaysLockedDb
  refine ⟨h.2.1, h.2.2.1, ?_, ?_⟩
  · exact h.2.2.2.1 (("database is locked").toList) rfl
  · intro hw
    have := h.2.2.2.2.mp hw
    cases this

/-! ## Extraction jobs (`indexer.py`)

Each per-format library interaction (`Document(...)`, `pd.read_csv`,
`open(...).read()`, OCR, ...) is a black box that either produces text or
raises; it is modelled as an environment function returning
`Except PyExn Str`.  An extractor returning plain `Str` cannot raise; the
one extractor that can leak an exception (`extract_text_from_ps1`, whose
UTF-16 fallback is guarded only against `UnicodeDecodeError`) returns
`Except PyExn Str`. -/

/-- A raised Python exception as the handlers see it: a `UnicodeDecodeError`
or any other `Exception`, carrying `str(e)`. -/
inductive PyExn where
  | unicodeDecodeError (msg : Str)
  | otherExn (msg : Str)
deriving DecidableEq

/-- `str(e)`. -/
def PyExn.msg : PyExn → Str
  | .unicodeDecodeError m => m
  | .otherExn m => m

/-- The `path.stat()` data the job reads (with the `isoformat` rendering of
the modification time). -/
structure FileStat where
  size : Nat
  modified_iso : Str
deriving DecidableEq

/-- The external world of an extraction job: `stat`, the clock, and every
per-format library read (each possibly raising). -/
structure ExtractEnv where
  stat : Str → Except PyExn FileStat
  now_iso : Str
  docxInstalled : Bool
  docxRead : Str → Except PyExn Str
  pandasInstalled : Bool
  csvReadUtf8 : Str → Except PyExn Str
  csvReadLatin1 : Str → Except PyExn Str
  openpyxlInstalled : Bool
  xlsxRead : Str → Except PyExn Str
  xlsRead : Str → Except PyExn Str
  pypdfInstalled : Bool
  pdfRead : Str → Except PyExn Str
  ocrInstalled : Bool
  imageOcr : Str → Except PyExn Str
  openUtf8 : Str → Except PyExn Str
  openUtf16 : Str → Except PyExn Str
  openLatin1 : Str → Except PyExn Str

/-- `name.rfind('.')` as an `Option` (Python returns -1 when absent). -/
def rfindDot (name : Str) : Option Nat :=
  (List.range name.length).foldl
    (fun acc i => if name[i]? = some '.' then some i else acc) none

/-- `Path(p).suffix`: the extension of the final component, empty for names
with no dot, a leading dot only, or a trailing dot. -/
def pyPathSuffix (p : Str) : Str :=
  let nm := pyName p
  match rfindDot nm with
  | some i => if 0 < i ∧ i < nm.length - 1 then nm.drop i else []
  | none => []

/-- `SUPPORTED_EXTENSIONS` from `config.py`. -/
def supported_extensions : List (Str × Str) :=
  ([(".docx", "Word Document"), (".csv", "CSV File"),
    (".xlsx", "Excel Spreadsheet"), (".xls", "Excel Spreadsheet (Legacy)"),
    (".pdf", "PDF Document"), (".txt", "Text File"),
    (".ps1", "PowerShell Script"), (".jpg", "JPEG Image"),
    (".jpeg", "JPEG Image"), (".png", "PNG Image"), (".gif", "GIF Image"),
    (".bmp", "Bitmap Image"), (".tiff", "TIFF Image"),
    (".tif", "TIFF Image")]).map
    fun e : String × String => (e.1.toList, e.2.toList)

/-- The image extensions of the dispatch in `extract_text` /
`extract_document_data`. -/
def image_extensions : List Str :=
  ([".jpg", ".jpeg", ".png", ".gif", ".bmp", ".tiff", ".tif"]).map
    String.toList

/-- `extract_text_from_docx` = `_static_extract_docx` (character-identical
bodies in the source): not-installed and failure placeholders, text
otherwise. -/
def extract_text_from_docx (env : ExtractEnv) (p : Str) : Str :=
  if !env.docxInstalled then ("[python-docx not installed]").toList
  else
    match env.docxRead p with
    | .ok t => t
    | .error e => ("[Error reading DOCX: ").toList ++ e.msg ++ ("]").toList

/-- `extract_text_from_csv` (instance version): UTF-8 attempt, then Latin-1;
the placeholder carries the FIRST exception's text. -/
def extract_text_from_csv (env : ExtractEnv) (p : Str) : Str :=
  if !env.pandasInstalled then ("[pandas not installed]").toList
  else
    match env.csvReadUtf8 p with
    | .ok t => t
    | .error e =>
      match env.csvReadLatin1 p with
      | .ok t => t
      | .error _ => ("[Error reading CSV: ").toList ++ e.msg ++ ("]").toList

/-- `_static_extract_csv` (worker version): same fallbacks, but the
placeholder carries the SECOND exception's text. -/
def static_extract_csv (env : ExtractEnv) (p : Str) : Str :=
  if !env.pandasInstalled then ("[pandas not installed]").toList
  else
    match env.csvReadUtf8 p with
    | .ok t => t
    | .error _ =>
      match env.csvReadLatin1 p with
      | .ok t => t
      | .error e2 => ("[Error reading CSV: ").toList ++ e2.msg ++ ("]").toList

/-- `extract_text_from_xlsx` = `_static_extract_xlsx`. -/
def extract_text_from_xlsx (env : ExtractEnv) (p : Str) : Str :=
  if !env.openpyxlInstalled then ("[openpyxl not installed]").toList
  else
    match env.xlsxRead p with
    | .ok t => t
    | .error e => ("[Error reading XLSX: ").toList ++ e.msg ++ ("]").toList

/-- `extract_text_from_xls` = `_static_extract_xls`. -/
def extract_text_from_xls (env : ExtractEnv) (p : Str) : Str :=
  if !env.pandasInstalled then ("[pandas not installed]").toList
  else
    match env.xlsRead p with
    | .ok t => t
    | .error e =>
      ("[Error reading XLS: ").toList ++ e.msg ++
        (". Note: xlrd package may be required for .xls files]").toList

/-- `extract_text_from_pdf` = `_static_extract_pdf`. -/
def extract_text_from_pdf (env : ExtractEnv) (p : Str) : Str :=
  if !env.pypdfInstalled then ("[PyPDF2 not installed]").toList
  else
    match env.pdfRead p with
    | .ok t => t
    | .error e => ("[Error reading PDF: ").toList ++ e.msg ++ ("]").toList

/-- `extract_text_from_image` = `_static_extract_image`: blank OCR output is
replaced by a bracketed notice. -/
def extract_text_from_image (env : ExtractEnv) (p : Str) : Str :=
  if !env.ocrInstalled then ("[Pillow or pytesseract not installed]").toList
  else
    match env.imageOcr p with
    | .ok t => if (pyStrip t).isEmpty then ("[No text found in image]").toList else t
    | .error e => ("[Error reading image: ").toList ++ e.msg ++ ("]").toList

/-- `extract_text_from_txt` = `_static_extract_txt`: UTF-8, then Latin-1 on a
decode error; every exception path ends at a placeholder. -/
def extract_text_from_txt (env : ExtractEnv) (p : Str) : Str :=
  match env.openUtf8 p with
  | .ok t => t
  | .error (.unicodeDecodeError _) =>
    match env.openLatin1 p with
    | .ok t => t
    | .error e => ("[Error reading text file: ").toList ++ e.msg ++ ("]").toList
  | .error (.otherExn m) =>
    ("[Error reading text file: ").toList ++ m ++ ("]").toList

/-- `extract_text_from_ps1` = `_static_extract_ps1`: UTF-8, then UTF-16, then
Latin-1.  The UTF-16 attempt sits inside the first `except
UnicodeDecodeError:` handler and is guarded only by another `except
UnicodeDecodeError:`; a different exception raised there is caught by no
handler (the sibling `except Exception:` of the outer `try` does not cover
exceptions raised inside a handler) and escapes the function — the
`Except.error` result. -/
def extract_text_from_ps1 (env : ExtractEnv) (p : Str) : Except PyExn Str :=
  match env.openUtf8 p with
  | .ok t => .ok t
  | .error (.unicodeDecodeError _) =>
    match env.openUtf16 p with
    | .ok t => .ok t
    | .error (.unicodeDecodeError _) =>
      match env.openLatin1 p with
      | .ok t => .ok t
      | .error e =>
        .ok (("[Error reading PowerShell script: ").toList ++ e.msg
          ++ ("]").toList)
    | .error (.otherExn m) => .error (.otherExn m)
  | .error (.otherExn m) =>
    .ok (("[Error reading PowerShell script: ").toList ++ m ++ ("]").toList)

/-- `DocumentIndexer.extract_text` (`indexer.py` lines 403-424): dispatch on
the lowercased suffix.  The result is `Except` only because of the `.ps1`
escape path; every other branch is a plain string. -/
def extract_text (env : ExtractEnv) (p : Str) : Except PyExn Str :=
  let ext := pyLower (pyPathSuffix p)
  if ext = (".docx").toList then .ok (extract_text_from_docx env p)
  else if ext = (".csv").toList then .ok (extract_text_from_csv env p)
  else if ext = (".xlsx").toList then .ok (extract_text_from_xlsx env p)
  else if ext = (".xls").toList then .ok (extract_text_from_xls env p)
  else if ext = (".pdf").toList then .ok (extract_text_from_pdf env p)
  else if ext = (".txt").toList then .ok (extract_text_from_txt env p)
  else if ext = (".ps1").toList then extract_text_from_ps1 env p
  else if ext ∈ image_extensions then .ok (extract_text_from_image env p)
  else .ok (("[Unsupported file type]").toList)

/-- The dispatch inside `extract_document_data` over the `_static_extract_*`
workers; identical to `extract_text` except for the CSV variant. -/
def extract_text_static (env : ExtractEnv) (p : Str) : Except PyExn Str :=
  let ext := pyLower (pyPathSuffix p)
  if ext = (".docx").toList then .ok (extract_text_from_docx env p)
  else if ext = (".csv").toList then .ok (static_extract_csv env p)
  else if ext = (".xlsx").toList then .ok (extract_text_from_xlsx env p)
  else if ext = (".xls").toList then .ok (extract_text_from_xls env p)
  else if ext = (".pdf").toList then .ok (extract_text_from_pdf env p)
  else if ext = (".txt").toList then .ok (extract_text_from_txt env p)
  else if ext = (".ps1").toList then extract_text_from_ps1 env p
  else if ext ∈ image_extensions then .ok (extract_text_from_image env p)
  else .ok (("[Unsupported file type]").toList)

/-- The components of a path (separators `/` and `\`), for
`Path.relative_to`. -/
def pathCompsGo : Str → Str → List Str
  | acc, [] => if acc.isEmpty then [] else [acc.reverse]
  | acc, c :: cs =>
    if isPathSep c then
      if acc.isEmpty then pathCompsGo [] cs else acc.reverse :: pathCompsGo [] cs
    else
      pathCompsGo (c :: acc) cs

/-- Path components. -/
def pathComponents (p : Str) : List Str := pathCompsGo [] p

/-- Join components with a separator character. -/
def joinWith (sep : Char) : List Str → Str
  | [] => []
  | [x] => x
  | x :: y :: ys => x ++ sep :: joinWith sep (y :: ys)

/-- `str(Path(p).parent)` (component granularity, rendered with `/`). -/
def pyParent (p : Str) : Str :=
  match (pathComponents p).dropLast with
  | [] => (".").toList
  | comps => joinWith '/' comps

/-- The `folder_path` computation of `extract_document_data` /
`index_document`: `str(path.parent.relative_to(document_path))` with
separators replaced by spaces, or — when `relative_to` raises `ValueError`
because the parent is not under `document_path` — the plain parent. -/
def folderPathFor (document_path p : Str) : Str :=
  let parentComps := pathComponents (pyParent p)
  let baseComps := pathComponents document_path
  if leadsList baseComps parentComps then
    match parentComps.drop baseComps.length with
    | [] => (".").toList
    | rest => joinWith ' ' rest
  else pyParent p

/-- The metadata dict packaged by `extract_document_data`. -/
structure DocMeta where
  file_name : Str
  folder_path : Str
  file_type : Str
  file_size : Nat
  modified_date : Str
  indexed_date : Str
deriving DecidableEq

/-- The worker's return value: `(True, file_path, metadata, content)` or
`(False, file_path, error_message, None)`. -/
inductive JobResult where
  | ok (file_path : Str) (meta : DocMeta) (content : Str)
  | err (file_path : Str) (message : Str)
deriving DecidableEq

/-- The metadata of a successful job. -/
def mkMeta (env : ExtractEnv) (st : FileStat) (file_path document_path : Str) :
    DocMeta :=
  { file_name := pyName file_path
    folder_path := folderPathFor document_path file_path
    file_type := (lookupAL supported_extensions
      (pyLower (pyPathSuffix file_path))).getD (("Unknown").toList)
    file_size := st.size
    modified_date := st.modified_iso
    indexed_date := env.now_iso }

/-- `DocumentIndexer.extract_document_data` (`indexer.py` lines 426-487): one
outer `try` wraps the metadata computation and the static-extractor
dispatch; any exception reaching it — the `stat` call raising, or the
`.ps1` escape — becomes the `(False, file_path, str(e), None)` tuple.
The source computes the metadata before extracting, so a `stat` failure
preempts extraction. -/
def extract_document_data (env : ExtractEnv) (file_path document_path : Str) :
    JobResult :=
  match env.stat file_path with
  | .error e => .err file_path e.msg
  | .ok st =>
    match extract_text_static env file_path with
    | .error e => .err file_path e.msg
    | .ok content => .ok file_path (mkMeta env st file_path document_path) content

/-- A bracketed diagnostic placeholder: first character `[`, last `]`. -/
def isBracketed (s : Str) : Bool :=
  (s.head? == some '[') && (s.getLast? == some ']')

/-- The `.ok` texts among a batch of library outcomes. -/
def oksOf (l : List (Except PyExn Str)) : List Str :=
  l.filterMap fun r =>
    match r with
    | .ok t => some t
    | .error _ => none

/-- The texts the libraries actually produced for this path — everything an
extractor may legitimately return besides a bracketed placeholder. -/
def libSuccessTexts (env : ExtractEnv) (p : Str) : List Str :=
  let ext := pyLower (pyPathSuffix p)
  if ext = (".docx").toList then oksOf [env.docxRead p]
  else if ext = (".csv").toList then
    oksOf [env.csvReadUtf8 p, env.csvReadLatin1 p]
  else if ext = (".xlsx").toList then oksOf [env.xlsxRead p]
  else if ext = (".xls").toList then oksOf [env.xlsRead p]
  else if ext = (".pdf").toList then oksOf [env.pdfRead p]
  else if ext = (".txt").toList then oksOf [env.openUtf8 p, env.openLatin1 p]
  else if ext = (".ps1").toList then
    oksOf [env.openUtf8 p, env.openUtf16 p, env.openLatin1 p]
  else if ext ∈ image_extensions then oksOf [env.imageOcr p]
  else []

theorem isBracketed_concat (pre m : Str) (hpre : pre.head? = some '[') :
    isBracketed (pre ++ m ++ [']']) = true := by
  have h1 : (pre ++ m ++ [']']).head? = some '[' := by
    cases pre with
    | nil => simp at hpre
    | cons a t => exact hpre
  have h2 : (pre ++ m ++ [']']).getLast? = some ']' := List.getLast?_concat _
  unfold isBracketed
  rw [h1, h2]
  rfl

theorem docx_text_spec (env : ExtractEnv) (p : Str) :
    isBracketed (extract_text_from_docx env p) = true ∨
      extract_text_from_docx env p ∈ oksOf [env.docxRead p] := by
  unfold extract_text_from_docx
  cases hi : env.docxInstalled with
  | false =>
    rw [if_pos (by decide)]
    left
    decide
  | true =>
    rw [if_neg (by decide)]
    cases hr : env.docxRead p with
    | ok t =>
      right
      simp [oksOf]
    | error e =>
      left
      exact isBracketed_concat _ _ rfl

theorem csv_text_spec (env : ExtractEnv) (p : Str) :
    isBracketed (extract_text_from_csv env p) = true ∨
      extract_text_from_csv env p ∈ oksOf [env.csvReadUtf8 p, env.csvReadLatin1 p] := by
  unfold extract_text_from_csv
  cases hi : env.pandasInstalled with
  | false =>
    rw [if_pos (by decide)]
    left
    decide
  | true =>
    rw [if_neg (by decide)]
    cases h8 : env.csvReadUtf8 p with
    | ok t =>
      right
      simp [oksOf]
    | error e =>
      cases hl : env.csvReadLatin1 p with
      | ok t =>
        right
        simp [oksOf, hl]
      | error e2 =>
        left
        exact isBracketed_concat _ _ rfl

theorem static_csv_text_spec (env : ExtractEnv) (p : Str) :
    isBracketed (static_extract_csv env p) = true ∨
      static_extract_csv env p ∈ oksOf [env.csvReadUtf8 p, env.csvReadLatin1 p] := by
  unfold static_extract_csv
  cases hi : env.pandasInstalled with
  | false =>
    rw [if_pos (by decide)]
    left
    decide
  | true =>
    rw [if_neg (by decide)]
    cases h8 : env.csvReadUtf8 p with
    | ok t =>
      right
      simp [oksOf]
    | error e =>
      cases hl : env.csvReadLatin1 p with
      | ok t =>
        right
        simp [oksOf, hl]
      | error e2 =>
        left
        exact isBracketed_concat _ _ rfl

theorem xlsx_text_spec (env : ExtractEnv) (p : Str) :
    isBracketed (extract_text_from_xlsx env p) = true ∨
      extract_text_from_xlsx env p ∈ oksOf [env.xlsxRead p] := by
  unfold extract_text_from_xlsx
  cases hi : env.openpyxlInstalled with
  | false =>
    rw [if_pos (by decide)]
    left
    decide
  | true =>
    rw [if_neg (by decide)]
    cases hr : env.xlsxRead p with
    | ok t =>
      right
      simp [oksOf]
    | error e =>
      left
      exact isBracketed_concat _ _ rfl

theorem xls_text_spec (env : ExtractEnv) (p : Str) :
    isBracketed (extract_text_from_xls env p) = true ∨
      extract_text_from_xls env p ∈ oksOf [env.xlsRead p] := by
  unfold extract_text_from_xls
  cases hi : env.pandasInstalled with
  | false =>
    rw [if_pos (by decide)]
    left
    decide
  | true =>
    rw [if_neg (by decide)]
    cases hr : env.xlsRead p with
    | ok t =>
      right
      simp [oksOf]
    | error e =>
      left
      show isBracketed (("[Error reading XLS: ").toList ++ e.msg ++
        (". Note: xlrd package may be required for .xls files]").toList) = true
      have hx : (". Note: xlrd package may be required for .xls files").toList
          ++ ([']'] : Str)
          = (". Note: xlrd package may be required for .xls files]").toList := by
        decide
      have h := isBracketed_concat (("[Error reading XLS: ").toList)
        (e.msg ++ (". Note: xlrd package may be required for .xls files").toList)
        rfl
      rw [← hx]
      simpa [List.append_assoc] using h

theorem pdf_text_spec (env : ExtractEnv) (p : Str) :
    isBracketed (extract_text_from_pdf env p) = true ∨
      extract_text_from_pdf env p ∈ oksOf [env.pdfRead p] := by
  unfold extract_text_from_pdf
  cases hi : env.pypdfInstalled with
  | false =>
    rw [if_pos (by decide)]
    left
    decide
  | true =>
    rw [if_neg (by decide)]
    cases hr : env.pdfRead p with
    | ok t =>
      right
      simp [oksOf]
    | error e =>
      left
      exact isBracketed_concat _ _ rfl

theorem image_text_spec (env : ExtractEnv) (p : Str) :
    isBracketed (extract_text_from_image env p) = true ∨
      extract_text_from_image env p ∈ oksOf [env.imageOcr p] := by
  unfold extract_text_from_image
  cases hi : env.ocrInstalled with
  | false =>
    rw [if_pos (by decide)]
    left
    decide
  | true =>
    rw [if_neg (by decide)]
    cases hr : env.imageOcr p with
    | ok t =>
      by_cases hs : (pyStrip t).isEmpty = true
      · left
        show isBracketed (if (pyStrip t).isEmpty = true
          then ("[No text found in image]").toList else t) = true
        rw [if_pos hs]
        decide
      · right
        show (if (pyStrip t).isEmpty = true
          then ("[No text found in image]").toList else t) ∈ oksOf [Except.ok t]
        rw [if_neg hs]
        simp [oksOf]
    | error e =>
      left
      exact isBracketed_concat _ _ rfl

theorem txt_text_spec (env : ExtractEnv) (p : Str) :
    isBracketed (extract_text_from_txt env p) = true ∨
      extract_text_from_txt env p ∈ oksOf [env.openUtf8 p, env.openLatin1 p] := by
  unfold extract_text_from_txt
  cases h8 : env.openUtf8 p with
  | ok t =>
    right
    simp [oksOf]
  | error e =>
    cases e with
    | unicodeDecodeError mu =>
      cases hl : env.openLatin1 p with
      | ok t =>
        right
        simp [oksOf, hl]
      | error e2 =>
        left
        exact isBracketed_concat _ _ rfl
    | otherExn m =>
      left
      exact isBracketed_concat _ _ rfl

theorem ps1_text_spec (env : ExtractEnv) (p : Str) :
    ∀ c, extract_text_from_ps1 env p = .ok c →
      isBracketed c = true ∨
        c ∈ oksOf [env.openUtf8 p, env.openUtf16 p, env.openLatin1 p] := by
  unfold extract_text_from_ps1
  cases h8 : env.openUtf8 p with
  | ok t =>
    intro c hc
    simp only [Except.ok.injEq] at hc
    subst hc
    right
    simp [oksOf]
  | error e =>
    cases e with
    | unicodeDecodeError mu =>
      cases h16 : env.openUtf16 p with
      | ok t =>
        intro c hc
        simp only [Except.ok.injEq] at hc
        subst hc
        right
        simp [oksOf, h16]
      | error e16 =>
        cases e16 with
        | unicodeDecodeError m16 =>
          cases hl : env.openLatin1 p with
          | ok t =>
            intro c hc
            simp only [Except.ok.injEq] at hc
            subst hc
            right
            simp [oksOf, hl]
          | error e2 =>
            intro c hc
            simp only [Except.ok.injEq] at hc
            subst hc
            left
            exact isBracketed_concat _ _ rfl
        | otherExn m2 =>
          intro c hc
          simp at hc
    | otherExn m =>
      intro c hc
      simp only [Except.ok.injEq] at hc
      subst hc
      left
      exact isBracketed_concat _ _ rfl

theorem ps1_error_shape (env : ExtractEnv) (p : Str) :
    ∀ e, extract_text_from_ps1 env p = .error e →
      ∃ mu m2, env.openUtf8 p = .error (.unicodeDecodeError mu) ∧
        env.openUtf16 p = .error (.otherExn m2) ∧ e = .otherExn m2 := by
  unfold extract_text_from_ps1
  cases h8 : env.openUtf8 p with
  | ok t => intro e he; simp at he
  | error e0 =>
    cases e0 with
    | unicodeDecodeError mu =>
      cases h16 : env.openUtf16 p with
      | ok t => intro e he; simp at he
      | error e16 =>
        cases e16 with
        | unicodeDecodeError m16 =>
          cases hl : env.openLatin1 p with
          | ok t => intro e he; simp at he
          | error e2 => intro e he; simp at he
        | otherExn m2 =>
          intro e he
          simp only [Except.error.injEq] at he
          subst he
          exact ⟨mu, m2, rfl, rfl, rfl⟩
    | otherExn m => intro e he; simp at he

theorem extract_text_ok_spec (env : ExtractEnv) (p : Str) :
    ∀ c, extract_text env p = .ok c →
      isBracketed c = true ∨ c ∈ libSuccessTexts env p := by
  intro c hc
  simp only [extract_text] at hc
  simp only [libSuccessTexts]
  split_ifs at hc ⊢ with h1 h2 h3 h4 h5 h6 h7 h8
  · simp only [Except.ok.injEq] at hc
    subst hc
    exact docx_text_spec env p
  · simp only [Except.ok.injEq] at hc
    subst hc
    exact csv_text_spec env p
  · simp only [Except.ok.injEq] at hc
    subst hc
    exact xlsx_text_spec env p
  · simp only [Except.ok.injEq] at hc
    subst hc
    exact xls_text_spec env p
  · simp only [Except.ok.injEq] at hc
    subst hc
    exact pdf_text_spec env p
  · simp only [Except.ok.injEq] at hc
    subst hc
    exact txt_text_spec env p
  · exact ps1_text_spec env p c hc
  · simp only [Except.ok.injEq] at hc
    subst hc
    exact image_text_spec env p
  · simp only [Except.ok.injEq] at hc
    subst hc
    left
    decide

theorem extract_text_static_ok_spec (env : ExtractEnv) (p : Str) :
    ∀ c, extract_text_static env p = .ok c →
      isBracketed c = true ∨ c ∈ libSuccessTexts env p := by
  intro c hc
  simp only [extract_text_static] at hc
  simp only [libSuccessTexts]
  split_ifs at hc ⊢ with h1 h2 h3 h4 h5 h6 h7 h8
  · simp only [Except.ok.injEq] at hc
    subst hc
    exact docx_text_spec env p
  · simp only [Except.ok.injEq] at hc
    subst hc
    exact static_csv_text_spec env p
  · simp only [Except.ok.injEq] at hc
    subst hc
    exact xlsx_text_spec env p
  · simp only [Except.ok.injEq] at hc
    subst hc
    exact xls_text_spec env p
  · simp only [Except.ok.injEq] at hc
    subst hc
    exact pdf_text_spec env p
  · simp only [Except.ok.injEq] at hc
    subst hc
    exact txt_text_spec env p
  · exact ps1_text_spec env p c hc
  · simp only [Except.ok.injEq] at hc
    subst hc
    exact image_text_spec env p
  · simp only [Except.ok.injEq] at hc
    subst hc
    left
    decide

theorem extract_text_static_error_shape (env : ExtractEnv) (p : Str) :
    ∀ e, extract_text_static env p = .error e →
      pyLower (pyPathSuffix p) = (".ps1").toList ∧
      ∃ mu m2, env.openUtf8 p = .error (.unicodeDecodeError mu) ∧
        env.openUtf16 p = .error (.otherExn m2) ∧ e = .otherExn m2 := by
  intro e he
  simp only [extract_text_static] at he
  split_ifs at he with h1 h2 h3 h4 h5 h6 h7 h8
  exact ⟨h7, ps1_error_shape env p e he⟩

/-- The environment of the C7 counterexample: a `.ps1` file whose UTF-8 read
fails with a `UnicodeDecodeError` and whose UTF-16 fallback then raises a
different exception — the one combination no handler covers. -/
def envPs1C7 : ExtractEnv where
  stat := fun _ => .ok ⟨0, []⟩
  now_iso := []
  docxInstalled := true
  docxRead := fun _ => .ok []
  pandasInstalled := true
  csvReadUtf8 := fun _ => .ok []
  csvReadLatin1 := fun _ => .ok []
  openpyxlInstalled := true
  xlsxRead := fun _ => .ok []
  xlsRead := fun _ => .ok []
  pypdfInstalled := true
  pdfRead := fun _ => .ok []
  ocrInstalled := true
  imageOcr := fun _ => .ok []
  openUtf8 := fun _ => .error (.unicodeDecodeError (("bad start byte").toList))
  openUtf16 := fun _ => .error (.otherExn (("boom").toList))
  openLatin1 := fun _ => .ok []

/-- C7 (counterexample): for a supported `.ps1` file whose UTF-8 read raises
`UnicodeDecodeError` and whose UTF-16 fallback raises a non-decode
exception, `extract_text` raises (the exception escapes the function: the
sibling `except Exception` of its outer `try` does not catch exceptions
raised inside the first handler), and `extract_document_data` returns the
failure tuple `(False, path, str(e), None)`: the extractor failure is NOT
turned into a bracketed placeholder and the job's content slot is `None`,
not a string. -/
theorem C7_extraction_counterexample :
    extract_text envPs1C7 (("script.ps1").toList)
      = .error (.otherExn (("boom").toList)) ∧
    extract_document_data envPs1C7 (("script.ps1").toList) (("docs").toList)
      = .err (("script.ps1").toList) (("boom").toList) := by
  constructor
  · rfl
  · rfl

/-- C7 (amended): the job boundary `extract_document_data` never raises — a
`stat` failure or the one escaping extractor exception becomes the
`(False, file_path, str(e), None)` failure tuple, and on success the
content is always a string, namely the dispatched extractor's result;
every extractor failure except a non-`UnicodeDecodeError` raised by the
UTF-16 fallback of `.ps1` extraction is turned into a bracketed placeholder
(`isBracketed`), everything else an extractor can return being text some
library call actually produced; and `extract_text` can only raise through
that single `.ps1` corner. -/
theorem C7_extraction_job (env : ExtractEnv) (file_path document_path : Str) :
    (∀ e, env.stat file_path = .error e →
        extract_document_data env file_path document_path
          = .err file_path e.msg) ∧
    (∀ st c, env.stat file_path = .ok st →
        extract_text_static env file_path = .ok c →
        extract_document_data env file_path document_path
          = .ok file_path (mkMeta env st file_path document_path) c) ∧
    (∀ st e, env.stat file_path = .ok st →
        extract_text_static env file_path = .error e →
        extract_document_data env file_path document_path
          = .err file_path e.msg ∧
        pyLower (pyPathSuffix file_path) = (".ps1").toList ∧
        ∃ mu m2,
          env.openUtf8 file_path = .error (.unicodeDecodeError mu) ∧
          env.openUtf16 file_path = .error (.otherExn m2) ∧ e = .otherExn m2) ∧
    (∀ c, extract_text env file_path = .ok c →
        isBracketed c = true ∨ c ∈ libSuccessTexts env file_path) ∧
    (∀ c, extract_text_static env file_path = .ok c →
        isBracketed c = true ∨ c ∈ libSuccessTexts env file_path) := by
  refine ⟨?_, ?_, ?_, extract_text_ok_spec env file_path,
    extract_text_static_ok_spec env file_path⟩
  · intro e he
    unfold extract_document_data
    rw [he]
  · intro st c hst hc
    unfold extract_document_data
    rw [hst, hc]
  · intro st e hst he
    refine ⟨?_, extract_text_static_error_shape env file_path e he⟩
    unfold extract_document_data
    rw [hst, he]

/-- Witness environment: `stat` raises (the file vanished before the job
ran). -/
def envStatErrC7 : ExtractEnv :=
  { envPs1C7 with stat := fun _ => .error (.otherExn (("gone").toList)) }

/-- Witness environment: the DOCX library raises on a `.docx` file. -/
def envDocxFailC7 : ExtractEnv :=
  { envPs1C7 with
    stat := fun _ => .ok ⟨3, ("2024").toList⟩
    docxRead := fun _ => .error (.otherExn (("corrupt").toList)) }

/-- Witness for C7: a vanished file yields the failure tuple with the error
text; a failing DOCX library read yields a successful job whose content is
the bracketed placeholder. -/
theorem C7_extraction_job_witness :
    extract_document_data envStatErrC7 (("a.docx").toList) (("docs").toList)
      = .err (("a.docx").toList) (("gone").toList) ∧
    (isBracketed (("[Error reading DOCX: corrupt]").toList) = true ∨
      ("[Error reading DOCX: corrupt]").toList
        ∈ libSuccessTexts envDocxFailC7 (("a.docx").toList)) ∧
    extract_document_data envDocxFailC7 (("a.docx").toList) (("docs").toList)
      = .ok (("a.docx").toList)
          (mkMeta envDocxFailC7 ⟨3, ("2024").toList⟩ (("a.docx").toList)
            (("docs").toList))
          (("[Error reading DOCX: corrupt]").toList) := by
  refine ⟨?_, ?_, ?_⟩
  · exact (C7_extraction_job envStatErrC7 (("a.docx").toList)
      (("docs").toList)).1 (.otherExn (("gone").toList)) rfl
  · exact (C7_extraction_job envDocxFailC7 (("a.docx").toList)
      (("docs").toList)).2.2.2.2 (("[Error reading DOCX: corrupt]").toList) rfl
  · exact (C7_extraction_job envDocxFailC7 (("a.docx").toList)
      (("docs").toList)).2.1 ⟨3, ("2024").toList⟩
      (("[Error reading DOCX: corrupt]").toList) rfl rfl

end SSLD
